import Mathlib

/-!
Verification of the medical-chatbot web service (`app.py`).

The program is a small Flask application: it validates two required
environment variables at startup, builds a retrieval-augmented-generation
chain bound to a fixed vector index, and serves three HTTP routes
(`/` index page, `/get` chat submission, `/health` liveness probe).

This file shallowly embeds the request handlers and the startup logic as
pure Lean functions.  External collaborators (the vector store, the
language model, template rendering) appear as parameters: the RAG chain is
a function from the query string to an outcome (a result dictionary or a
raised exception), the process environment is a function from variable
names to optional values.  Handler side effects that the claims mention
(console output, chain invocations) are returned explicitly in the
handler's outcome so that theorems can speak about them.
-/

namespace MedicalChatbot

/-- Whitespace characters removed by Python's `str.strip()` (the ASCII
whitespace set: space, tab, newline, carriage return, vertical tab,
form feed). -/
def isPySpace (c : Char) : Bool :=
  c = ' ' || c = '\t' || c = '\n' || c = '\r' || c = '\x0b' || c = '\x0c'

/-- Python's `str.strip()`: remove leading and trailing whitespace. -/
def pyStrip (s : String) : String :=
  ⟨(s.data.dropWhile isPySpace).rdropWhile isPySpace⟩

/-- A Python value as it can appear under the `"answer"` key of the chain's
result dictionary.  `str()` is modelled by `PyValue.pyStr` below. -/
inductive PyValue where
  | pstr (s : String)
  | pint (n : Int)
  | pbool (b : Bool)
  | pnone
deriving DecidableEq

/-- Python's `str()` rendering of a value. -/
def PyValue.pyStr : PyValue → String
  | .pstr s => s
  | .pint n => toString n
  | .pbool b => if b then "True" else "False"
  | .pnone => "None"

/-- The dictionary returned by `rag_chain.invoke`: the handler only reads
its `"answer"` key (`result.get("answer", "")`), which may be absent. -/
structure ChainResult where
  answer? : Option PyValue
deriving DecidableEq

/-- Outcome of `rag_chain.invoke({"input": u})`: either a result
dictionary, or a raised exception carrying its textual description
(`str(e)`) and its stack trace (what `traceback.print_exc()` prints). -/
inductive ChainOutcome where
  | ok (result : ChainResult)
  | exn (msg : String) (trace : String)
deriving DecidableEq

/-- An HTTP response: status code and body text. -/
structure HttpResponse where
  status : Nat
  body : String
deriving DecidableEq

/-- What one invocation of a route handler produces: the HTTP response,
the lines written to the console, and the list of inputs passed to
`rag_chain.invoke` (in order). -/
structure HandlerOutcome where
  response : HttpResponse
  console : List String
  chainCalls : List String
deriving DecidableEq

/-- The `/get` handler (`chat` in `app.py`):
`user_msg = request.form.get("msg", "").strip()`; blank input gives
`("Please type a message.", 400)` without invoking the chain; otherwise
`rag_chain.invoke({"input": user_msg})` is called and
`str(result.get("answer", "")).strip()` is returned (HTTP 200); any
exception is caught, its stack trace printed, and
`Response(f"Error: \x7be\x7d", status=500)` returned. -/
def chat (form_msg? : Option String) (rag_chain : String → ChainOutcome) :
    HandlerOutcome :=
  let user_msg := pyStrip (form_msg?.getD "")
  if user_msg = "" then
    ⟨⟨400, "Please type a message."⟩, [], []⟩
  else
    match rag_chain user_msg with
    | .ok result =>
        ⟨⟨200, pyStrip (PyValue.pyStr (result.answer?.getD (.pstr "")))⟩,
         [], [user_msg]⟩
    | .exn msg trace =>
        ⟨⟨500, "Error: " ++ msg⟩, [trace], [user_msg]⟩

/-- The error message raised by `require_env` for a missing variable. -/
def envErrorMsg (name : String) : String :=
  "Missing required environment variable: " ++ name ++
    ". Set it in your OS or in a .env file next to app.py."

/-- `require_env` from `app.py`: `val = os.getenv(name)`; raises
`RuntimeError` when `not val or not val.strip()`, else returns
`val.strip()`.  The process environment is the function `env`. -/
def require_env (env : String → Option String) (name : String) :
    Except String String :=
  match env name with
  | none => .error (envErrorMsg name)
  | some val =>
      if val = "" || pyStrip val = "" then .error (envErrorMsg name)
      else .ok (pyStrip val)

/-- Process state after the startup block: either degraded (a
`RuntimeError` escaped the `require_env` calls, so the chain is never
built and only the `missing_keys` root route exists), or running with
both validated keys. -/
inductive AppState where
  | degraded (errMsg : String)
  | running (pineconeKey openaiKey : String)
deriving DecidableEq

/-- The startup validation block: `require_env("PINECONE_API_KEY")` then
`require_env("OPENAI_API_KEY")`; the first failure degrades the app. -/
def startupState (env : String → Option String) : AppState :=
  match require_env env "PINECONE_API_KEY" with
  | .error e => .degraded e
  | .ok p =>
      match require_env env "OPENAI_API_KEY" with
      | .error e => .degraded e
      | .ok o => .running p o

/-- Console output of startup: in the degraded case the re-raised
`RuntimeError` surfaces its message on the console; a successful startup
prints nothing the claims care about. -/
def startupConsole (env : String → Option String) : List String :=
  match startupState env with
  | .degraded e => [e]
  | .running _ _ => []

/-- Whether the RAG chain was constructed: the code after the `except`
block (embeddings, vector store, retriever, chain) runs only when both
`require_env` calls succeed. -/
def chainInitialized (env : String → Option String) : Bool :=
  match startupState env with
  | .degraded _ => false
  | .running _ _ => true

/-- Placeholder for Flask's `render_template` (an external collaborator;
its output is out of scope for every claim). -/
def renderTemplate (t : String) : String := "<rendered " ++ t ++ ">"

/-- GET `/`: the degraded app serves `missing_keys`, returning
`(f"<pre>\x7be\x7d</pre>", 500)`; the running app renders `chat.html`. -/
def rootGet (env : String → Option String) : HttpResponse :=
  match startupState env with
  | .degraded e => ⟨500, "<pre>" ++ e ++ "</pre>"⟩
  | .running _ _ => ⟨200, renderTemplate "chat.html"⟩

/-- Body produced by `jsonify(status="ok")`. -/
def healthBody : String := "\x7b\"status\": \"ok\"\x7d"

/-- The `/health` handler: a constant, dependency-free response. -/
def health : HttpResponse := ⟨200, healthBody⟩

/-- An HTTP request to one of the three routes of the running app. -/
inductive Request where
  | getRoot
  | postGet (form_msg? : Option String)
  | getHealth
deriving DecidableEq

/-- Route dispatch of the fully configured app. -/
def appHandle (rag_chain : String → ChainOutcome) : Request → HandlerOutcome
  | .getRoot => ⟨⟨200, renderTemplate "chat.html"⟩, [], []⟩
  | .postGet form_msg? => chat form_msg? rag_chain
  | .getHealth => ⟨health, [], []⟩

/-- Construction-time configuration of `docsearch.as_retriever(...)`. -/
structure RetrieverConfig where
  index_name : String
  search_type : String
  k : Nat
deriving DecidableEq

/-- `index_name = "medicalai-chatbot"` in `app.py`. -/
def index_name : String := "medicalai-chatbot"

/-- The retriever built at startup:
`docsearch.as_retriever(search_type="similarity", search_kwargs=\x7b"k": 3\x7d)`
over the index `index_name`. -/
def retriever : RetrieverConfig := ⟨index_name, "similarity", 3⟩

/-- One request step of the running app, threading the retriever
configuration: handlers read no part of it and never modify it. -/
def appStep (cfg : RetrieverConfig) (rag_chain : String → ChainOutcome)
    (req : Request) : RetrieverConfig × HandlerOutcome :=
  (cfg, appHandle rag_chain req)

/-- `sub` occurs as a contiguous substring of `s`. -/
def containsSub (s sub : String) : Prop :=
  ∃ pre post : List Char, s.data = pre ++ sub.data ++ post

example : pyStrip "  hello \n" = "hello" := by decide
example : pyStrip "" = "" := by decide
example : require_env (fun _ => none) "X" = .error (envErrorMsg "X") := rfl

/-! ### Helper lemmas -/

theorem pyStrip_empty : pyStrip "" = "" := rfl

theorem pyStrip_eq_empty_of_all_space (s : String)
    (h : s.data.all isPySpace = true) : pyStrip s = "" := by
  unfold pyStrip
  have hnil : s.data.dropWhile isPySpace = [] :=
    List.dropWhile_eq_nil_iff.mpr (by simpa [List.all_eq_true] using h)
  rw [hnil]
  rfl

/-- `require_env` in closed form: everything hangs on whether the
trimmed value (empty when the variable is unset) is empty. -/
theorem require_env_eq (env : String → Option String) (name : String) :
    require_env env name =
      if pyStrip ((env name).getD "") = "" then
        Except.error (envErrorMsg name)
      else Except.ok (pyStrip ((env name).getD "")) := by
  unfold require_env
  cases henv : env name with
  | none => simp [Option.getD, pyStrip_empty]
  | some val =>
      by_cases hv : val = ""
      · subst hv
        simp [pyStrip_empty]
      · by_cases hstrip : pyStrip val = "" <;> simp [hv, hstrip]

theorem pyStrip_some_getD (m : String) : ((some m).getD "") = m := rfl

/-- Unfolding of `chat` on a non-blank message. -/
theorem chat_nonblank (msg : String) (rag_chain : String → ChainOutcome)
    (hmsg : pyStrip msg ≠ "") :
    chat (some msg) rag_chain =
      match rag_chain (pyStrip msg) with
      | .ok result =>
          ⟨⟨200, pyStrip (PyValue.pyStr (result.answer?.getD (.pstr "")))⟩,
           [], [pyStrip msg]⟩
      | .exn m trace =>
          ⟨⟨500, "Error: " ++ m⟩, [trace], [pyStrip msg]⟩ := by
  unfold chat
  simp [pyStrip_some_getD, hmsg]

/-! ### Claims -/

/-- C1: for every POST to `/get` whose form field `msg` is non-blank
after trimming and for every chain result the invocation returns without
raising, the handler responds with HTTP 200 whose plain-text body equals
the trimmed value of the result's `"answer"` field, and equals the empty
string when the `"answer"` field is absent. -/
theorem C1_chat_success (msg : String) (rag_chain : String → ChainOutcome)
    (result : ChainResult)
    (hmsg : pyStrip msg ≠ "")
    (hchain : rag_chain (pyStrip msg) = ChainOutcome.ok result) :
    (chat (some msg) rag_chain).response =
      ⟨200, pyStrip (PyValue.pyStr (result.answer?.getD (.pstr "")))⟩ ∧
    (result.answer? = none → (chat (some msg) rag_chain).response.body = "") := by
  rw [chat_nonblank msg rag_chain hmsg, hchain]
  refine ⟨rfl, fun hnone => ?_⟩
  dsimp only
  rw [hnone]
  rfl

theorem C1_chat_success_witness :
    (chat (some " hi ") (fun _ => ChainOutcome.ok ⟨some (.pstr "  Hello  ")⟩)).response =
      ⟨200, "Hello"⟩ ∧
    (chat (some " hi ") (fun _ => ChainOutcome.ok ⟨none⟩)).response.body = "" := by
  constructor
  · have h := (C1_chat_success " hi " (fun _ => ChainOutcome.ok ⟨some (.pstr "  Hello  ")⟩)
      ⟨some (.pstr "  Hello  ")⟩ (by decide) rfl).1
    rw [h]
    decide
  · exact (C1_chat_success " hi " (fun _ => ChainOutcome.ok ⟨none⟩)
      ⟨none⟩ (by decide) rfl).2 rfl

/-- C2: for every POST to `/get` where the form field `msg` is absent,
empty, or consists only of whitespace, the handler returns HTTP 400 with
body exactly `"Please type a message."` and does not invoke the chain. -/
theorem C2_blank_msg (form_msg? : Option String)
    (rag_chain : String → ChainOutcome)
    (hblank : form_msg? = none ∨
      ∃ s, form_msg? = some s ∧ s.data.all isPySpace = true) :
    (chat form_msg? rag_chain).response = ⟨400, "Please type a message."⟩ ∧
    (chat form_msg? rag_chain).chainCalls = [] := by
  have hstrip : pyStrip (form_msg?.getD "") = "" := by
    rcases hblank with h | ⟨s, hs, hall⟩
    · rw [h]; rfl
    · rw [hs, pyStrip_some_getD]
      exact pyStrip_eq_empty_of_all_space s hall
  unfold chat
  simp [hstrip]

theorem C2_blank_msg_witness :
    (chat (some " \t\n ") (fun _ => ChainOutcome.ok ⟨some (.pstr "x")⟩)).response =
      ⟨400, "Please type a message."⟩ ∧
    (chat none (fun _ => ChainOutcome.ok ⟨some (.pstr "x")⟩)).chainCalls = [] := by
  constructor
  · exact (C2_blank_msg (some " \t\n ") (fun _ => ChainOutcome.ok ⟨some (.pstr "x")⟩)
      (Or.inr ⟨" \t\n ", rfl, by decide⟩)).1
  · exact (C2_blank_msg none (fun _ => ChainOutcome.ok ⟨some (.pstr "x")⟩)
      (Or.inl rfl)).2

/-- C3: for every exception raised by the chain invocation inside the
`/get` handler, the handler catches it and returns HTTP 500 with a
plain-text body equal to `"Error: "` followed by the exception's textual
description, after writing the full stack trace to the console; no
exception escapes the handler (the handler always yields a response). -/
theorem C3_chain_exception (msg e trace : String)
    (rag_chain : String → ChainOutcome)
    (hmsg : pyStrip msg ≠ "")
    (hchain : rag_chain (pyStrip msg) = ChainOutcome.exn e trace) :
    chat (some msg) rag_chain =
      ⟨⟨500, "Error: " ++ e⟩, [trace], [pyStrip msg]⟩ := by
  rw [chat_nonblank msg rag_chain hmsg, hchain]

theorem C3_chain_exception_witness :
    chat (some "hi") (fun _ => ChainOutcome.exn "boom" "Traceback: boom") =
      ⟨⟨500, "Error: boom"⟩, ["Traceback: boom"], ["hi"]⟩ := by
  have h := C3_chain_exception "hi" "boom" "Traceback: boom"
    (fun _ => ChainOutcome.exn "boom" "Traceback: boom") (by decide) rfl
  rw [h]
  decide

/-- C4: for every environment variable name, `require_env` raises a
descriptive error whose message identifies that variable name  if the
variable is unset, empty, or blank after trimming whitespace (all three
cases are exactly those whose trimmed value, taking `""` for an unset
variable, is empty); otherwise it returns the variable's value with
leading and trailing whitespace removed.  The error message contains the
variable name as a substring. -/
theorem C4_require_env (env : String → Option String) (name : String) :
    (pyStrip ((env name).getD "") = "" →
        require_env env name = Except.error (envErrorMsg name)) ∧
    (pyStrip ((env name).getD "") ≠ "" →
        require_env env name = Except.ok (pyStrip ((env name).getD ""))) ∧
    containsSub (envErrorMsg name) name := by
  refine ⟨fun h => ?_, fun h => ?_, ?_⟩
  · rw [require_env_eq, if_pos h]
  · rw [require_env_eq, if_neg h]
  · exact ⟨"Missing required environment variable: ".data,
      ". Set it in your OS or in a .env file next to app.py.".data, by
        simp [envErrorMsg]⟩

theorem C4_require_env_witness :
    require_env (fun n => if n = "OPENAI_API_KEY" then some " sk-123 " else none)
        "OPENAI_API_KEY" = Except.ok "sk-123" ∧
    require_env (fun n => if n = "OPENAI_API_KEY" then some " sk-123 " else none)
        "PINECONE_API_KEY" = Except.error (envErrorMsg "PINECONE_API_KEY") := by
  constructor
  · have h := (C4_require_env
      (fun n => if n = "OPENAI_API_KEY" then some " sk-123 " else none)
      "OPENAI_API_KEY").2.1 (by decide)
    rw [h]
    exact congrArg Except.ok (by decide)
  · exact (C4_require_env
      (fun n => if n = "OPENAI_API_KEY" then some " sk-123 " else none)
      "PINECONE_API_KEY").1 (by decide)

/-- C5: whenever either required environment variable
(`PINECONE_API_KEY` or `OPENAI_API_KEY`) is absent or whitespace-only at
startup, the process does not initialize its chain, the error message is
surfaced on the console, and a GET to the root route returns HTTP 500
with a body containing the missing variable's name. -/
theorem C5_startup_missing_key (env : String → Option String)
    (h : pyStrip ((env "PINECONE_API_KEY").getD "") = "" ∨
         pyStrip ((env "OPENAI_API_KEY").getD "") = "") :
    chainInitialized env = false ∧
    (∃ e, startupState env = AppState.degraded e ∧ startupConsole env = [e]) ∧
    (rootGet env).status = 500 ∧
    (∃ name, (name = "PINECONE_API_KEY" ∨ name = "OPENAI_API_KEY") ∧
      pyStrip ((env name).getD "") = "" ∧ containsSub (rootGet env).body name) := by
  by_cases hp : pyStrip ((env "PINECONE_API_KEY").getD "") = ""
  · have hs : startupState env = .degraded (envErrorMsg "PINECONE_API_KEY") := by
      unfold startupState
      rw [require_env_eq, if_pos hp]
    refine ⟨?_, ⟨envErrorMsg "PINECONE_API_KEY", hs, ?_⟩, ?_, "PINECONE_API_KEY",
      Or.inl rfl, hp, ?_⟩
    · unfold chainInitialized; rw [hs]
    · unfold startupConsole; rw [hs]
    · unfold rootGet; rw [hs]
    · unfold rootGet
      rw [hs]
      exact ⟨"<pre>Missing required environment variable: ".data,
        ". Set it in your OS or in a .env file next to app.py.</pre>".data, by
          simp [envErrorMsg]⟩
  · have ho : pyStrip ((env "OPENAI_API_KEY").getD "") = "" := h.resolve_left hp
    have hs : startupState env = .degraded (envErrorMsg "OPENAI_API_KEY") := by
      unfold startupState
      rw [require_env_eq, if_neg hp]
      dsimp only
      rw [require_env_eq, if_pos ho]
    refine ⟨?_, ⟨envErrorMsg "OPENAI_API_KEY", hs, ?_⟩, ?_, "OPENAI_API_KEY",
      Or.inr rfl, ho, ?_⟩
    · unfold chainInitialized; rw [hs]
    · unfold startupConsole; rw [hs]
    · unfold rootGet; rw [hs]
    · unfold rootGet
      rw [hs]
      exact ⟨"<pre>Missing required environment variable: ".data,
        ". Set it in your OS or in a .env file next to app.py.</pre>".data, by
          simp [envErrorMsg]⟩

theorem C5_startup_missing_key_witness :
    chainInitialized (fun n => if n = "PINECONE_API_KEY" then some "pc-1" else none)
      = false ∧
    (rootGet (fun n => if n = "PINECONE_API_KEY" then some "pc-1" else none)).status
      = 500 := by
  have h := C5_startup_missing_key
    (fun n => if n = "PINECONE_API_KEY" then some "pc-1" else none)
    (Or.inr (by decide))
  exact ⟨h.1, h.2.2.1⟩

/-- C6: for every GET to `/health`, regardless of the state of downstream
services (an arbitrary chain) and without performing any dependency check
(no chain invocation is recorded), the handler returns HTTP 200 with the
JSON body `\x7b"status": "ok"\x7d`; the handler is a total function, so
it never fails. -/
theorem C6_health (rag_chain : String → ChainOutcome) :
    appHandle rag_chain Request.getHealth =
      ⟨⟨200, healthBody⟩, [], []⟩ := rfl

/-- C7 as stated is false: a chain invocation can succeed with an
`"answer"` whose trimmed rendering is empty, and then the body is the
empty string, not non-empty.  Concretely, with `msg = "What is a
migraine?"` and a chain returning `\x7b"answer": "   "\x7d`, the handler
returns HTTP 200 with an empty body. -/
theorem C7_counterexample :
    (chat (some "What is a migraine?")
        (fun _ => ChainOutcome.ok ⟨some (.pstr "   ")⟩)).response.status = 200 ∧
    (chat (some "What is a migraine?")
        (fun _ => ChainOutcome.ok ⟨some (.pstr "   ")⟩)).response.body = "" := by
  decide

/-- C7 (amended): for every POST to `/get` with a non-blank message
against a chain whose invocation succeeds and whose result's trimmed
`"answer"` rendering is non-empty, the response is HTTP 200 with a
non-empty plain-text body equal to the trimmed `"answer"` field of the
chain's result. -/
theorem C7_success_nonempty (msg : String)
    (rag_chain : String → ChainOutcome) (result : ChainResult)
    (hmsg : pyStrip msg ≠ "")
    (hchain : rag_chain (pyStrip msg) = ChainOutcome.ok result)
    (hans : pyStrip (PyValue.pyStr (result.answer?.getD (.pstr ""))) ≠ "") :
    (chat (some msg) rag_chain).response.status = 200 ∧
    (chat (some msg) rag_chain).response.body =
      pyStrip (PyValue.pyStr (result.answer?.getD (.pstr ""))) ∧
    (chat (some msg) rag_chain).response.body ≠ "" := by
  rw [chat_nonblank msg rag_chain hmsg, hchain]
  exact ⟨rfl, rfl, hans⟩

theorem C7_success_nonempty_witness :
    (chat (some "What is a migraine?")
        (fun _ => ChainOutcome.ok ⟨some (.pstr " A headache disorder. ")⟩)).response.status
      = 200 ∧
    (chat (some "What is a migraine?")
        (fun _ => ChainOutcome.ok ⟨some (.pstr " A headache disorder. ")⟩)).response.body
      ≠ "" := by
  have h := C7_success_nonempty "What is a migraine?"
    (fun _ => ChainOutcome.ok ⟨some (.pstr " A headache disorder. ")⟩)
    ⟨some (.pstr " A headache disorder. ")⟩ (by decide) rfl (by decide)
  exact ⟨h.1, h.2.2⟩

/-- C8: the retriever constructed at startup is bound to the fixed
external index name `"medicalai-chatbot"` and configured for similarity
search with a fixed result count K = 3; these parameters are set once at
construction and are unchanged by any sequence of requests the running
app handles. -/
theorem C8_retriever_config :
    retriever.index_name = "medicalai-chatbot" ∧
    retriever.search_type = "similarity" ∧
    retriever.k = 3 ∧
    ∀ (rag_chain : String → ChainOutcome) (reqs : List Request),
      reqs.foldl (fun cfg req => (appStep cfg rag_chain req).1) retriever =
        retriever := by
  refine ⟨rfl, rfl, rfl, fun rag_chain reqs => ?_⟩
  induction reqs with
  | nil => rfl
  | cons r rs ih => simp [appStep, ih]

/-- C10: for every chain result in which the `"answer"` key maps to a
value of any type (including a non-string value), the `/get` handler
still returns HTTP 200 with the trimmed string rendering of that value
produced by `str()`; a non-string `"answer"` value never causes the
handler to raise or to take the HTTP 500 error branch. -/
theorem C10_nonstring_answer (msg : String)
    (rag_chain : String → ChainOutcome) (result : ChainResult) (v : PyValue)
    (hmsg : pyStrip msg ≠ "")
    (hchain : rag_chain (pyStrip msg) = ChainOutcome.ok result)
    (hv : result.answer? = some v) :
    (chat (some msg) rag_chain).response = ⟨200, pyStrip (PyValue.pyStr v)⟩ ∧
    (chat (some msg) rag_chain).response.status ≠ 500 := by
  rw [chat_nonblank msg rag_chain hmsg, hchain]
  dsimp only
  rw [hv]
  exact ⟨rfl, by decide⟩

theorem C10_nonstring_answer_witness :
    (chat (some "hello") (fun _ => ChainOutcome.ok ⟨some (.pint 42)⟩)).response =
      ⟨200, "42"⟩ ∧
    (chat (some "hello") (fun _ => ChainOutcome.ok ⟨some .pnone⟩)).response =
      ⟨200, "None"⟩ := by
  constructor
  · have h := (C10_nonstring_answer "hello"
      (fun _ => ChainOutcome.ok ⟨some (.pint 42)⟩) ⟨some (.pint 42)⟩
      (.pint 42) (by decide) rfl rfl).1
    rw [h]
    decide
  · have h := (C10_nonstring_answer "hello"
      (fun _ => ChainOutcome.ok ⟨some .pnone⟩) ⟨some .pnone⟩
      .pnone (by decide) rfl rfl).1
    rw [h]
    decide

/-- After stripping whitespace from both ends, the head (if any) is not
whitespace, so stripping from the left again changes nothing. -/
theorem dropWhile_rdropWhile_dropWhile (p : Char → Bool) (l : List Char) :
    ((l.dropWhile p).rdropWhile p).dropWhile p = (l.dropWhile p).rdropWhile p := by
  rw [List.dropWhile_eq_self_iff]
  intro hl
  have hpre := List.rdropWhile_prefix p (l.dropWhile p)
  have hlen : 0 < (l.dropWhile p).length := hl.trans_le hpre.length_le
  have hget : ((l.dropWhile p).rdropWhile p).get ⟨0, hl⟩ =
      (l.dropWhile p).get ⟨0, hlen⟩ := by
    simp only [List.get_eq_getElem]
    exact hpre.getElem hl
  rw [hget]
  exact List.dropWhile_get_zero_not p l hlen

/-- `pyStrip` is idempotent: a stripped string has no leading or
trailing whitespace left to remove. -/
theorem pyStrip_idem (s : String) : pyStrip (pyStrip s) = pyStrip s := by
  unfold pyStrip
  dsimp only
  rw [dropWhile_rdropWhile_dropWhile, List.rdropWhile_idempotent]

/-- C9: for every POST to `/get` with a non-blank message, the string
passed to the chain as its `"input"` is the whitespace-trimmed form of
the submitted `msg` field — in particular it carries no leading or
trailing whitespace itself (`pyStrip` is idempotent on it) — and two
requests whose `msg` values differ only in surrounding whitespace (i.e.
trim to the same string) produce the same chain input. -/
theorem C9_trimmed_input (msg other : String)
    (rag_chain : String → ChainOutcome)
    (hmsg : pyStrip msg ≠ "")
    (heq : pyStrip msg = pyStrip other) :
    (chat (some msg) rag_chain).chainCalls = [pyStrip msg] ∧
    pyStrip (pyStrip msg) = pyStrip msg ∧
    (chat (some msg) rag_chain).chainCalls =
      (chat (some other) rag_chain).chainCalls := by
  have hother : pyStrip other ≠ "" := heq ▸ hmsg
  rw [chat_nonblank msg rag_chain hmsg, chat_nonblank other rag_chain hother]
  refine ⟨?_, pyStrip_idem msg, ?_⟩
  · cases hr : rag_chain (pyStrip msg) <;> rfl
  · rw [← heq]

theorem C9_trimmed_input_witness :
    (chat (some "  hi \n") (fun _ => ChainOutcome.ok ⟨some (.pstr "x")⟩)).chainCalls
      = ["hi"] ∧
    (chat (some "  hi \n") (fun _ => ChainOutcome.ok ⟨some (.pstr "x")⟩)).chainCalls
      = (chat (some "hi  ") (fun _ => ChainOutcome.ok ⟨some (.pstr "x")⟩)).chainCalls := by
  have h := C9_trimmed_input "  hi \n" "hi  "
    (fun _ => ChainOutcome.ok ⟨some (.pstr "x")⟩) (by decide) (by decide)
  refine ⟨?_, h.2.2⟩
  rw [h.1]
  decide

end MedicalChatbot
